import Mathlib

/-!
Verification of the `rekallpy` packaging manifest (`src/rekallpy/setup.py`).

The manifest is a single Python file:

```
from setuptools import setup

if __name__ == "__main__":
    setup(
        name='rekallpy',
        version_format='{tag}',
        description='Spatiotemporal query language',
        url='http://github.com/scanner-research/rekall',
        author='Dan Fu',
        author_email='danfu@stanford.edu',
        license='Apache 2.0',
        packages=['rekall'],
        install_requires=['python-constraint', 'tqdm', 'cloudpickle'],
        setup_requires=['setuptools-git-version', 'pytest-runner'],
        tests_require=['pytest'],
        zip_safe=False)
```

We embed the manifest shallowly: the keyword arguments of the single
`setup(...)` call become an association list of Python values, and the
evaluation of the module becomes a function from the evaluation
environment (the value bound to `__name__`, plus the ambient process
environment) to the list of external calls the module performs.  The
`setup` function itself is external (imported from `setuptools`), so a
call to it is recorded as an effect rather than interpreted.
-/

/-- A Python value as it appears among the keyword arguments of the
`setup` call: a string literal, a list of string literals, or a boolean. -/
inductive PyVal where
  | str (s : String) : PyVal
  | list (l : List String) : PyVal
  | bool (b : Bool) : PyVal
deriving DecidableEq, Repr

/-- An externally observable action performed while the module body runs.
The only possible action of this module is a call to the imported
`setuptools.setup` function with a list of keyword arguments. -/
inductive Effect where
  | setupCall (kwargs : List (String × PyVal)) : Effect
deriving DecidableEq, Repr

/-- The environment a Python module sees when it is evaluated: the string
bound to `__name__` (for the main program this is `"__main__"`), and the
ambient process environment (environment variables).  The manifest never
reads the process environment; it is carried here so that independence
from it can be stated. -/
structure PyEnv where
  dunderName : String
  osEnviron : String → Option String

/-- The keyword arguments of the `setup(...)` call, line by line from
`src/rekallpy/setup.py` (lines 5-16), in source order. -/
def setupKwargs : List (String × PyVal) :=
  [("name", PyVal.str "rekallpy"),
   ("version_format", PyVal.str "{tag}"),
   ("description", PyVal.str "Spatiotemporal query language"),
   ("url", PyVal.str "http://github.com/scanner-research/rekall"),
   ("author", PyVal.str "Dan Fu"),
   ("author_email", PyVal.str "danfu@stanford.edu"),
   ("license", PyVal.str "Apache 2.0"),
   ("packages", PyVal.list ["rekall"]),
   ("install_requires", PyVal.list ["python-constraint", "tqdm", "cloudpickle"]),
   ("setup_requires", PyVal.list ["setuptools-git-version", "pytest-runner"]),
   ("tests_require", PyVal.list ["pytest"]),
   ("zip_safe", PyVal.bool false)]

/-- Look up the keyword argument named `k` in the `setup(...)` call.
Python forbids duplicate keyword arguments, so association-list lookup is
exact. -/
def setupKwarg (k : String) : Option PyVal :=
  (setupKwargs.find? (fun p => p.1 == k)).map (fun p => p.2)

/-- Evaluation of the module body in environment `e`: after the import,
the single `if __name__ == "__main__":` statement either performs the
`setup(...)` call (when the module is the main program) or does nothing.
The result type is `Except`: the manifest's own logic has an error case
in the type, but no statement of the module can reach it. -/
def evalModule (e : PyEnv) : Except String (List Effect) :=
  if e.dunderName = "__main__" then
    Except.ok [Effect.setupCall setupKwargs]
  else
    Except.ok []

/-- A concrete environment in which the module is the main program. -/
def mainEnv : PyEnv :=
  { dunderName := "__main__", osEnviron := fun _ => none }

/-- A second concrete main-program environment with a different ambient
process environment. -/
def mainEnvAlt : PyEnv :=
  { dunderName := "__main__", osEnviron := fun _ => some "1" }

/-- A concrete environment in which the module is imported rather than
run as the main program. -/
def importEnv : PyEnv :=
  { dunderName := "rekallpy.setup", osEnviron := fun _ => none }

/-- Claim C1 as stated by the spec reading: the `name` argument equals
the single entry of the `packages` argument. -/
def nameMatchesPackage : Prop :=
  ∃ n, setupKwarg "name" = some (PyVal.str n) ∧
    setupKwarg "packages" = some (PyVal.list [n])

/-- Claim C1, counterexample: the claim as stated is false on the
manifest.  The `name` argument is `"rekallpy"` while the single entry of
the `packages` argument is `"rekall"`, so the declared distribution name
does not equal the declared importable package name. -/
theorem C1_counterexample : ¬ nameMatchesPackage := by
  intro h
  rcases h with ⟨n, hn, hp⟩
  have hn' : n = "rekallpy" := by
    have := hn
    simp [setupKwarg, setupKwargs] at this
    cases this
    rfl
  subst hn'
  simp [setupKwarg, setupKwargs] at hp

/-- Claim C1, amended: the declared distribution name is `"rekallpy"`,
the single declared importable package is `"rekall"`, and the two
differ — installing under the declared distribution name exposes
`"rekall"`, not the distribution name itself, as importable. -/
theorem C1_amended :
    setupKwarg "name" = some (PyVal.str "rekallpy") ∧
    setupKwarg "packages" = some (PyVal.list ["rekall"]) ∧
    "rekallpy" ≠ "rekall" := by
  refine ⟨?_, ?_, ?_⟩ <;> decide

/-- Claim C2: the `packages` argument passed to `setup` is a list with
exactly one element. -/
theorem C2_single_package :
    ∃ p, setupKwarg "packages" = some (PyVal.list p) ∧ p.length = 1 := by
  exact ⟨["rekall"], by decide, rfl⟩

/-- Claim C3: the `install_requires` argument passed to `setup` is
exactly the three runtime dependencies `python-constraint`, `tqdm`,
`cloudpickle`, in that order. -/
theorem C3_runtime_deps :
    setupKwarg "install_requires" =
      some (PyVal.list ["python-constraint", "tqdm", "cloudpickle"]) := by
  decide

/-- Claim C4: the version is derived from a source-control tag at build
time — the manifest passes `version_format='{tag}'`, declares
`setuptools-git-version` in `setup_requires`, and passes no literal
`version` argument. -/
theorem C4_tag_version :
    setupKwarg "version_format" = some (PyVal.str "{tag}") ∧
    (∃ sr, setupKwarg "setup_requires" = some (PyVal.list sr) ∧
      "setuptools-git-version" ∈ sr) ∧
    setupKwarg "version" = none := by
  refine ⟨by decide, ⟨["setuptools-git-version", "pytest-runner"], by decide, ?_⟩, by decide⟩
  decide

/-- Claim C5: `tests_require` contains `pytest` and `setup_requires`
contains the packaging hook `pytest-runner`. -/
theorem C5_test_runner :
    (∃ ts, setupKwarg "tests_require" = some (PyVal.list ts) ∧ "pytest" ∈ ts) ∧
    (∃ sr, setupKwarg "setup_requires" = some (PyVal.list sr) ∧
      "pytest-runner" ∈ sr) := by
  exact ⟨⟨["pytest"], by decide, by decide⟩,
    ⟨["setuptools-git-version", "pytest-runner"], by decide, by decide⟩⟩

/-- Claim C6: the `setup` call supplies non-empty `name`,
`version_format`, `install_requires` and `license` arguments, and its
`description` argument equals `"Spatiotemporal query language"`. -/
theorem C6_metadata_fields :
    (∃ s, setupKwarg "name" = some (PyVal.str s) ∧ s ≠ "") ∧
    (∃ s, setupKwarg "version_format" = some (PyVal.str s) ∧ s ≠ "") ∧
    (∃ l, setupKwarg "install_requires" = some (PyVal.list l) ∧ l ≠ []) ∧
    (∃ s, setupKwarg "license" = some (PyVal.str s) ∧ s ≠ "") ∧
    setupKwarg "description" = some (PyVal.str "Spatiotemporal query language") := by
  refine ⟨⟨"rekallpy", by decide, by decide⟩,
    ⟨"{tag}", by decide, by decide⟩,
    ⟨["python-constraint", "tqdm", "cloudpickle"], by decide, by decide⟩,
    ⟨"Apache 2.0", by decide, by decide⟩, by decide⟩

/-- Claim C7: the manifest contains no runtime logic outside the main
guard — in every environment where the module is not the main program,
evaluation performs no effect at all, so `setup` is never called. -/
theorem C7_no_effect_on_import (e : PyEnv) (h : e.dunderName ≠ "__main__") :
    evalModule e = Except.ok [] := by
  unfold evalModule
  simp [h]

/-- Claim C7, witness: a concrete import-time environment in which the
module performs no effect. -/
theorem C7_no_effect_on_import_witness :
    importEnv.dunderName ≠ "__main__" ∧ evalModule importEnv = Except.ok [] := by
  exact ⟨by decide, C7_no_effect_on_import importEnv (by decide)⟩

/-- Claim C8: the manifest's own logic never fails: for every
environment, evaluation of the module returns `ok` — the error case of
the embedding is unreachable, so any failure can come only from the
external `setup` call itself. -/
theorem C8_total (e : PyEnv) : ∃ l, evalModule e = Except.ok l := by
  unfold evalModule
  by_cases h : e.dunderName = "__main__" <;> simp [h]

/-- Claim C9: the `zip_safe` argument passed to `setup` is `False`, so
the package is declared not zip-safe and is always installed unpacked. -/
theorem C9_not_zip_safe :
    setupKwarg "zip_safe" = some (PyVal.bool false) := by
  decide

/-- Claim C10: the declared metadata is deterministic — any two
evaluations of the module as the main program perform exactly the same
single `setup` call with identical, literal argument values, whatever
the ambient process environment is. -/
theorem C10_deterministic (e₁ e₂ : PyEnv)
    (h₁ : e₁.dunderName = "__main__") (h₂ : e₂.dunderName = "__main__") :
    evalModule e₁ = evalModule e₂ ∧
    evalModule e₁ = Except.ok [Effect.setupCall setupKwargs] := by
  unfold evalModule
  simp [h₁, h₂]

/-- Claim C10, witness: two concrete main-program environments with
different ambient process environments yield the identical setup call. -/
theorem C10_deterministic_witness :
    evalModule mainEnv = evalModule mainEnvAlt ∧
    evalModule mainEnv = Except.ok [Effect.setupCall setupKwargs] := by
  exact C10_deterministic mainEnv mainEnvAlt (by decide) (by decide)
